import Mathlib

/-!
Verification development for the GreatScottMonitor face-service core.

The Python sources are shallowly embedded: machine floats are modelled as
exact rationals or reals, numpy or OpenCV measurements that are opaque to
this repository (Laplacian variance, HSV saturation means, image decoding,
detection models) are passed in as explicit function parameters, and any
Python statement that raises is modelled by an `Option` or `Except` value
being `none` or `error`.
-/

namespace GSMon

open Classical in
/-- Python `collections.deque` with `maxlen`: appending to a full deque
drops the oldest retained entries from the left. -/
def dequeAppend (l : List ℝ) (maxlen : ℕ) (a : ℝ) : List ℝ :=
  let l2 := l ++ [a]
  if maxlen < l2.length then l2.drop (l2.length - maxlen) else l2

/-- A face landmark dictionary as produced by `FaceDetector._extract_landmarks`:
a `name` string plus pixel coordinates. -/
structure Landmark where
  name : String
  x : ℝ
  y : ℝ

/-- The mutable state of `LivenessDetector`: threshold, history capacity and
the two bounded histories. -/
structure LivState where
  blink_threshold : ℝ
  history_size : ℕ
  eye_history : List ℝ
  head_pose_history : List ℝ

/-- `deque[-1]` with a junk default for the empty case. -/
def lastEntry (l : List ℝ) : ℝ := l.getLast?.getD 0

/-- `deque[0]` with a junk default for the empty case. -/
def headEntry (l : List ℝ) : ℝ := l.head?.getD 0

/-- `deque[-2]` with a junk default when fewer than two entries exist. -/
def prevEntry (l : List ℝ) : ℝ := l.dropLast.getLast?.getD 0

/-- `np.linalg.norm` of the difference of two 2-d points. -/
noncomputable def pdist (p q : ℝ × ℝ) : ℝ :=
  Real.sqrt ((p.1 - q.1) ^ 2 + (p.2 - q.2) ^ 2)

/-- `LivenessDetector.calculate_eye_aspect_ratio`.  The source slices the
first four landmarks into `points` and then indexes `points[5]` and
`points[4]`; an out-of-range index is a Python `IndexError`, modelled as
`none`. -/
noncomputable def calculate_eye_ar (eye_landmarks : List Landmark) : Option ℝ :=
  if eye_landmarks.length < 4 then some 1
  else
    let points := (eye_landmarks.take 4).map (fun lm => (lm.x, lm.y))
    match points[1]?, points[5]?, points[2]?, points[4]?, points[0]?, points[3]? with
    | some p1, some p5, some p2, some p4, some p0, some p3 =>
      let vertical_1 := pdist p1 p5
      let vertical_2 := pdist p2 p4
      let horizontal := pdist p0 p3
      if horizontal = 0 then some 1
      else some ((vertical_1 + vertical_2) / (2 * horizontal))
    | _, _, _, _, _, _ => none

open Classical in
/-- Python truth value of a decidable-free proposition, via classical choice. -/
noncomputable def pyBool (p : Prop) : Bool := @decide p (Classical.propDecidable p)

/-- `LivenessDetector.detect_blink`.  Returns the boolean together with the
updated detector state; `none` models an uncaught exception escaping from
`calculate_eye_aspect_ratio`. -/
noncomputable def detect_blink (st : LivState) (landmarks : List Landmark) :
    Option (Bool × LivState) :=
  let right_eye := landmarks.filter (fun lm => lm.name == "right_eye")
  let left_eye := landmarks.filter (fun lm => lm.name == "left_eye")
  if right_eye.isEmpty || left_eye.isEmpty then some (false, st)
  else
    match calculate_eye_ar right_eye, calculate_eye_ar left_eye with
    | some right_ear, some left_ear =>
      let avg_ear := (right_ear + left_ear) / 2
      let hist := dequeAppend st.eye_history st.history_size avg_ear
      let st2 : LivState := ⟨st.blink_threshold, st.history_size, hist, st.head_pose_history⟩
      if 2 ≤ hist.length then
        if avg_ear < st.blink_threshold ∧ st.blink_threshold ≤ prevEntry hist then
          some (true, st2)
        else some (false, st2)
      else some (false, st2)
    | _, _ => none

open Classical in
/-- `np.arctan2`. -/
noncomputable def arctan2R (y x : ℝ) : ℝ :=
  if 0 < x then Real.arctan (y / x)
  else if x < 0 then
    (if 0 ≤ y then Real.arctan (y / x) + Real.pi else Real.arctan (y / x) - Real.pi)
  else
    (if 0 < y then Real.pi / 2 else if y < 0 then -(Real.pi / 2) else 0)

/-- `np.degrees`. -/
noncomputable def degreesR (r : ℝ) : ℝ := r * 180 / Real.pi

/-- Result dictionary of `LivenessDetector.detect_head_movement`. -/
structure MovementResult where
  has_movement : Bool
  angle : ℝ
  angle_change : ℝ

/-- `LivenessDetector.detect_head_movement`.  In the source, `angle_change`
is assigned only inside the `len >= 3` branch, yet the returned dictionary
reads it whenever `len >= 2`; at history length exactly 2 this is a Python
`UnboundLocalError`, modelled as `none`. -/
noncomputable def detect_head_movement (st : LivState) (landmarks : List Landmark) :
    Option (MovementResult × LivState) :=
  if landmarks.isEmpty then some (⟨false, 0, 0⟩, st)
  else
    match landmarks.find? (fun lm => lm.name == "right_eye"),
          landmarks.find? (fun lm => lm.name == "left_eye") with
    | some re, some le =>
      let dx := le.x - re.x
      let dy := le.y - re.y
      let angle := degreesR (arctan2R dy dx)
      let hist := dequeAppend st.head_pose_history st.history_size angle
      let st2 : LivState := ⟨st.blink_threshold, st.history_size, st.eye_history, hist⟩
      if 3 ≤ hist.length then
        let angle_change := |lastEntry hist - headEntry hist|
        some (⟨pyBool (5 < angle_change), angle, angle_change⟩, st2)
      else if 2 ≤ hist.length then
        none
      else some (⟨false, angle, 0⟩, st2)
    | _, _ => some (⟨false, 0, 0⟩, st)

/-- A fresh `LivenessDetector(blink_threshold=0.3, history_size=10)`. -/
noncomputable def freshLivState : LivState := ⟨3 / 10, 10, [], []⟩

/-- Landmarks of a frame where both eyes were detected once each. -/
def twoEyeLandmarks : List Landmark := [⟨"right_eye", 0, 0⟩, ⟨"left_eye", 1, 0⟩]

/-- Claim C2: `detect_head_movement` never faults and signals movement by the
window rule.  Refuted: the second consecutive call with both eyes present
reaches a head-pose history of length exactly 2, where the source reads the
unassigned local `angle_change` and raises `UnboundLocalError`. -/
theorem detect_head_movement_second_call_faults :
    ((detect_head_movement freshLivState twoEyeLandmarks).bind
      fun p => detect_head_movement p.2 twoEyeLandmarks) = none := rfl

/-- Claim C3: `calculate_eye_aspect_ratio` returns without faulting.
Refuted: with four (or more) landmarks the slice `eye_landmarks[:4]` has
exactly four points, yet the formula indexes `points[5]` and `points[4]`,
raising `IndexError`; the formula branch is unreachable. -/
theorem calculate_eye_ar_four_points_faults :
    calculate_eye_ar [⟨"right_eye", 0, 0⟩, ⟨"right_eye", 1, 0⟩,
      ⟨"right_eye", 2, 1⟩, ⟨"right_eye", 3, 1⟩] = none := rfl

/-- Both a right-eye and a left-eye landmark are present by name
(the guard at the top of `detect_blink`). -/
def eyesPresent (landmarks : List Landmark) : Bool :=
  !(landmarks.filter (fun lm => lm.name == "right_eye")).isEmpty &&
  !(landmarks.filter (fun lm => lm.name == "left_eye")).isEmpty

theorem getLast?_drop_concat (l : List ℝ) (a : ℝ) (k : ℕ) (hk : k ≤ l.length) :
    ((l ++ [a]).drop k).getLast? = some a := by
  rw [List.drop_append_eq_append_drop, Nat.sub_eq_zero_of_le hk]
  simp [List.getLast?_concat]

/-- Whatever the deque drops on the left, a nonempty post-append history
always ends with the freshly appended value. -/
theorem lastEntry_dequeAppend (l : List ℝ) (n : ℕ) (a : ℝ)
    (h : dequeAppend l n a ≠ []) : lastEntry (dequeAppend l n a) = a := by
  unfold dequeAppend at h ⊢
  by_cases hc : n < (l ++ [a]).length
  · rw [if_pos hc] at h ⊢
    have hk : (l ++ [a]).length - n ≤ l.length := by
      rcases Nat.eq_zero_or_pos n with h0 | h0
      · exfalso
        exact h (List.drop_eq_nil_iff.2 (by omega))
      · simp only [List.length_append, List.length_cons, List.length_nil]
        omega
    unfold lastEntry
    rw [getLast?_drop_concat l a _ hk]
    rfl
  · rw [if_neg hc]
    unfold lastEntry
    rw [List.getLast?_concat]
    rfl

theorem lastEntry_mem (l : List ℝ) (h : l ≠ []) : lastEntry l ∈ l := by
  unfold lastEntry
  rw [List.getLast?_eq_getLast l h]
  exact List.getLast_mem h

theorem prevEntry_mem (l : List ℝ) (h : 2 ≤ l.length) : prevEntry l ∈ l := by
  unfold prevEntry
  have hd : l.dropLast ≠ [] := by
    have hlen := l.length_dropLast
    intro hnil
    rw [hnil] at hlen
    simp at hlen
    omega
  rw [List.getLast?_eq_getLast _ hd]
  exact List.dropLast_subset l (List.getLast_mem hd)

/-- Claim C7: `detect_blink` fires exactly on the falling edge of the mean
EAR across the blink threshold, requires two history entries, returns false
when either eye is absent (leaving the state untouched), and never fires on
histories that stay entirely below or entirely at-or-above the threshold. -/
theorem detect_blink_spec (st : LivState) (lms : List Landmark) (b : Bool)
    (st2 : LivState) (h : detect_blink st lms = some (b, st2)) :
    (b = true ↔ (eyesPresent lms = true ∧ 2 ≤ st2.eye_history.length ∧
        lastEntry st2.eye_history < st.blink_threshold ∧
        st.blink_threshold ≤ prevEntry st2.eye_history))
    ∧ (eyesPresent lms = false → b = false ∧ st2 = st)
    ∧ ((∀ x ∈ st2.eye_history, x < st.blink_threshold) → b = false)
    ∧ ((∀ x ∈ st2.eye_history, st.blink_threshold ≤ x) → b = false) := by
  unfold detect_blink at h
  by_cases he : ((lms.filter (fun lm => lm.name == "right_eye")).isEmpty ||
      (lms.filter (fun lm => lm.name == "left_eye")).isEmpty) = true
  · rw [if_pos he] at h
    injection h with h1
    injection h1 with hb hst
    subst hb
    subst hst
    have hep : eyesPresent lms = false := by
      unfold eyesPresent
      rcases Bool.or_eq_true_iff.1 he with h1 | h1 <;> simp [h1]
    refine ⟨?_, fun _ => ⟨rfl, rfl⟩, fun _ => rfl, fun _ => rfl⟩
    simp [hep]
  · rw [if_neg he] at h
    have hep : eyesPresent lms = true := by
      unfold eyesPresent
      simp only [Bool.or_eq_true, not_or, Bool.not_eq_true] at he
      simp [he.1, he.2]
    cases hre : calculate_eye_ar (lms.filter (fun lm => lm.name == "right_eye")) with
    | none =>
      rw [hre] at h
      cases hle : calculate_eye_ar (lms.filter (fun lm => lm.name == "left_eye")) with
      | none => rw [hle] at h; exact Option.noConfusion h
      | some left_ear => rw [hle] at h; exact Option.noConfusion h
    | some right_ear =>
      rw [hre] at h
      cases hle : calculate_eye_ar (lms.filter (fun lm => lm.name == "left_eye")) with
      | none => rw [hle] at h; exact Option.noConfusion h
      | some left_ear =>
        rw [hle] at h
        dsimp only at h
        set avg_ear := (right_ear + left_ear) / 2 with havg
        set hist := dequeAppend st.eye_history st.history_size avg_ear with hhist
        by_cases h2 : 2 ≤ hist.length
        · rw [if_pos h2] at h
          have hne : hist ≠ [] := by
            intro hnil
            rw [hnil] at h2
            simp at h2
          have hlast : lastEntry hist = avg_ear := lastEntry_dequeAppend _ _ _ hne
          by_cases hcond : avg_ear < st.blink_threshold ∧
              st.blink_threshold ≤ prevEntry hist
          · rw [if_pos hcond] at h
            injection h with h1
            injection h1 with hb hst
            subst hb
            subst hst
            refine ⟨⟨fun _ => ⟨hep, h2, hlast.trans_lt hcond.1, hcond.2⟩, fun _ => rfl⟩,
              ?_, ?_, ?_⟩
            · intro hfalse
              rw [hep] at hfalse
              exact Bool.noConfusion hfalse
            · intro hall
              exact absurd (hall _ (prevEntry_mem hist h2)) (not_lt.2 hcond.2)
            · intro hall
              exact absurd (hall _ (lastEntry_mem hist hne))
                (not_le.2 (hlast.trans_lt hcond.1))
          · rw [if_neg hcond] at h
            injection h with h1
            injection h1 with hb hst
            subst hb
            subst hst
            refine ⟨⟨fun hff => Bool.noConfusion hff, ?_⟩, ?_, fun _ => rfl, fun _ => rfl⟩
            · intro hr
              exact absurd ⟨hlast ▸ hr.2.2.1, hr.2.2.2⟩ hcond
            · intro hfalse
              rw [hep] at hfalse
              exact Bool.noConfusion hfalse
        · rw [if_neg h2] at h
          injection h with h1
          injection h1 with hb hst
          subst hb
          subst hst
          refine ⟨⟨fun hff => Bool.noConfusion hff, fun hr => absurd hr.2.1 h2⟩,
            ?_, fun _ => rfl, fun _ => rfl⟩
          intro hfalse
          rw [hep] at hfalse
          exact Bool.noConfusion hfalse

open Classical in
/-- Witness for C7: starting from a detector with threshold 2 whose EAR
history holds a single entry 3, a frame with one landmark per eye appends
mean EAR 1 and reports a blink, matching the falling-edge condition. -/
theorem detect_blink_spec_witness :
    (true = true ↔ (eyesPresent twoEyeLandmarks = true ∧
        2 ≤ ([3, ((1:ℝ) + 1) / 2] : List ℝ).length ∧
        lastEntry [3, ((1:ℝ) + 1) / 2] < 2 ∧
        (2:ℝ) ≤ prevEntry [3, ((1:ℝ) + 1) / 2])) :=
  (detect_blink_spec ⟨2, 10, [3], []⟩ twoEyeLandmarks true
    ⟨2, 10, [3, ((1:ℝ) + 1) / 2], []⟩ (by
      have hstep : detect_blink ⟨2, 10, [3], []⟩ twoEyeLandmarks =
          if ((1:ℝ) + 1) / 2 < (2:ℝ) ∧ (2:ℝ) ≤ prevEntry [(3:ℝ), ((1:ℝ) + 1) / 2]
          then some (true, (⟨2, 10, [3, ((1:ℝ) + 1) / 2], []⟩ : LivState))
          else some (false, (⟨2, 10, [3, ((1:ℝ) + 1) / 2], []⟩ : LivState)) := rfl
      rw [hstep, if_pos]
      refine ⟨by norm_num, ?_⟩
      unfold prevEntry
      norm_num)).1

/-! ### Quality validation (`quality_validator.py`) and quality scoring -/

/-- A BGR pixel, channels as exact rationals (uint8 values live in [0,255]). -/
structure Pix where
  b : ℚ
  g : ℚ
  r : ℚ

/-- A decoded frame: rows of pixels. -/
abbrev Frame := List (List Pix)

/-- `cv2.cvtColor(..., COLOR_BGR2GRAY)` per pixel, with the standard OpenCV
weights (the final uint8 rounding is omitted; the weights sum to 1 exactly). -/
def grayPix (p : Pix) : ℚ := 299 / 1000 * p.r + 587 / 1000 * p.g + 114 / 1000 * p.b

/-- Grayscale conversion of a whole region. -/
def grayM (m : List (List Pix)) : List (List ℚ) := m.map (fun row => row.map grayPix)

/-- Python list slicing `l[a:b]` with step 1: negative indices count from the
end, out-of-range indices clamp. -/
def pySlice {α : Type} (l : List α) (a bnd : ℤ) : List α :=
  let n : ℤ := l.length
  let lo := (if a < 0 then max (n + a) 0 else min a n).toNat
  let hi := (if bnd < 0 then max (n + bnd) 0 else min bnd n).toNat
  (l.drop lo).take (hi - lo)

/-- `frame[y:y+h, x:x+w]`. -/
def roiOf (frame : Frame) (x y w h : ℤ) : Frame :=
  (pySlice frame y (y + h)).map (fun row => pySlice row x (x + w))

/-- Element count of a row-of-rows region (`ndarray.size` up to the constant
channel factor, so the `size == 0` tests agree). -/
def roiSize {α : Type} (roi : List (List α)) : ℕ := (roi.map (fun row => row.length)).sum

/-- Flatten a matrix of grayscale values. -/
def flattenQ (m : List (List ℚ)) : List ℚ := m.flatten

/-- `ndarray.mean()` (0 on the empty array, which numpy warns about). -/
def qMean (l : List ℚ) : ℚ := if l.length = 0 then 0 else l.sum / l.length

/-- `ndarray.var()`, the population variance. -/
def qVar (l : List ℚ) : ℚ := qMean (l.map (fun v => (v - qMean l) ^ 2))

/-- `frame.shape[1]`: the row width of a rectangular frame. -/
def frameCols (frame : Frame) : ℕ := (frame.head?.getD []).length

/-- Result of `QualityValidator.check_blur`.  The Laplacian variance coming
from OpenCV is passed in as the measurement function `lapVar`. -/
structure BlurR where
  is_acceptable : Bool
  variance : ℚ
  score : ℚ

/-- `QualityValidator.check_blur` (min_blur_variance = 100.0). -/
def check_blur (lapVar : List (List ℚ) → ℚ) (frame : Frame) (x y w h : ℤ) : BlurR :=
  let face_roi := roiOf frame x y w h
  if roiSize face_roi = 0 then ⟨false, 0, 0⟩
  else
    let laplacian_var := lapVar (grayM face_roi)
    ⟨decide (100 ≤ laplacian_var), laplacian_var, min (laplacian_var / 100) 1⟩

/-- Result of `QualityValidator.check_lighting`. -/
structure LightingR where
  is_acceptable : Bool
  brightness : ℚ
  uniformity : ℝ
  score : ℝ

open Classical in
/-- `QualityValidator.check_lighting`. -/
noncomputable def check_lighting (frame : Frame) (x y w h : ℤ) : LightingR :=
  let face_roi := roiOf frame x y w h
  if roiSize face_roi = 0 then ⟨false, 0, 0, 0⟩
  else
    let g := flattenQ (grayM face_roi)
    let brightness := qMean g
    let std_dev : ℝ := Real.sqrt ((qVar g : ℚ) : ℝ)
    let uniformity : ℝ := 1 - min (std_dev / 50) 1
    ⟨pyBool (50 ≤ brightness ∧ brightness ≤ 200 ∧ (1 / 2 : ℝ) < uniformity),
      brightness, uniformity,
      (brightness : ℝ) / 200 * (1 / 2) + uniformity * (1 / 2)⟩

/-- Result of `QualityValidator.check_coverage`. -/
structure CoverageR where
  is_acceptable : Bool
  coverage : ℚ
  score : ℚ

/-- `QualityValidator.check_coverage` (acceptable range [0.5, 0.8], ideal
0.65, slack 0.15). -/
def check_coverage (frame : Frame) (_x _y w h : ℤ) : CoverageR :=
  let frame_area : ℚ := ((frame.length * frameCols frame : ℕ) : ℚ)
  let face_area : ℚ := ((w * h : ℤ) : ℚ)
  let coverage := if 0 < frame_area then face_area / frame_area else 0
  let distance_from_ideal := |coverage - 13 / 20|
  let score := 1 - min (distance_from_ideal / (3 / 20)) 1
  ⟨decide (1 / 2 ≤ coverage ∧ coverage ≤ 4 / 5), coverage, score⟩

/-- Result of `QualityValidator.check_eye_visibility`. -/
structure EyeR where
  both_visible : Bool
  right_eye_visible : Bool
  left_eye_visible : Bool
  score : ℚ

/-- `QualityValidator.check_eye_visibility`. -/
def check_eye_visibility (landmarks : List Landmark) : EyeR :=
  let right_eye := landmarks.any (fun lm => lm.name == "right_eye")
  let left_eye := landmarks.any (fun lm => lm.name == "left_eye")
  let both_visible := right_eye && left_eye
  ⟨both_visible, right_eye, left_eye, if both_visible then 1 else 0⟩

/-- Result of `QualityValidator.check_resolution`. -/
structure ResolutionR where
  meets_minimum : Bool
  width : ℤ
  height : ℤ
  min_dimension : ℤ
  score : ℚ

/-- `QualityValidator.check_resolution` (min_face_size = 224). -/
def check_resolution (w h : ℤ) : ResolutionR :=
  let min_dimension := min w h
  ⟨decide (224 ≤ min_dimension), w, h, min_dimension, min ((min_dimension : ℚ) / 224) 1⟩

/-- The aggregate dictionary built by `QualityValidator.validate_frame`. -/
structure QualityReport where
  is_valid : Bool
  score : ℝ
  errors : List String
  warnings : List String
  blur : BlurR
  lighting : LightingR
  coverage : CoverageR
  eyes : EyeR
  resolution : ResolutionR

/-- `np.mean` of a float list. -/
noncomputable def listMeanR (l : List ℝ) : ℝ := l.sum / l.length

/-- `QualityValidator.validate_frame`, mirroring the sequential mutation of
the `result` dictionary. -/
noncomputable def validate_frame (lapVar : List (List ℚ) → ℚ) (frame : Frame)
    (x y w h : ℤ) (landmarks : List Landmark) : QualityReport :=
  let blur := check_blur lapVar frame x y w h
  let valid1 := if !blur.is_acceptable then false else true
  let errs1 : List String := if !blur.is_acceptable then ["Frame is too blurry"] else []
  let lighting := check_lighting frame x y w h
  let warns : List String :=
    if !lighting.is_acceptable then ["Lighting may be suboptimal"] else []
  let coverage := check_coverage frame x y w h
  let valid2 := if !coverage.is_acceptable then false else valid1
  let errs2 := errs1 ++
    (if !coverage.is_acceptable then ["Face size is not within acceptable range"] else [])
  let eyes := check_eye_visibility landmarks
  let valid3 := if !eyes.both_visible then false else valid2
  let errs3 := errs2 ++ (if !eyes.both_visible then ["Both eyes must be visible"] else [])
  let res := check_resolution w h
  let valid4 := if !res.meets_minimum then false else valid3
  let errs4 := errs3 ++
    (if !res.meets_minimum then ["Face resolution too low (minimum: 224x224)"] else [])
  let score := listMeanR [(blur.score : ℝ), lighting.score, (coverage.score : ℝ),
    (eyes.score : ℝ), (res.score : ℝ)]
  ⟨valid4, score, errs4, warns, blur, lighting, coverage, eyes, res⟩

/-- Claim C6: overall validity is the conjunction of the blur, coverage,
eye-visibility and resolution flags; lighting failure only adds a warning;
the overall score is the arithmetic mean of the five sub-scores. -/
theorem validate_frame_spec (lapVar : List (List ℚ) → ℚ) (frame : Frame)
    (x y w h : ℤ) (lms : List Landmark) :
    (validate_frame lapVar frame x y w h lms).is_valid
      = ((check_blur lapVar frame x y w h).is_acceptable &&
          (check_coverage frame x y w h).is_acceptable &&
          (check_eye_visibility lms).both_visible &&
          (check_resolution w h).meets_minimum)
    ∧ (validate_frame lapVar frame x y w h lms).score
      = (((check_blur lapVar frame x y w h).score : ℝ)
          + (check_lighting frame x y w h).score
          + ((check_coverage frame x y w h).score : ℝ)
          + ((check_eye_visibility lms).score : ℝ)
          + ((check_resolution w h).score : ℝ)) / 5
    ∧ (validate_frame lapVar frame x y w h lms).warnings
      = (if (check_lighting frame x y w h).is_acceptable then []
         else ["Lighting may be suboptimal"]) := by
  refine ⟨?_, ?_, ?_⟩
  · show (if !(check_resolution w h).meets_minimum then false
        else if !(check_eye_visibility lms).both_visible then false
        else if !(check_coverage frame x y w h).is_acceptable then false
        else if !(check_blur lapVar frame x y w h).is_acceptable then false else true) = _
    cases (check_blur lapVar frame x y w h).is_acceptable <;>
      cases (check_coverage frame x y w h).is_acceptable <;>
      cases (check_eye_visibility lms).both_visible <;>
      cases (check_resolution w h).meets_minimum <;> rfl
  · show listMeanR _ = _
    unfold listMeanR
    simp only [List.sum_cons, List.sum_nil, List.length_cons, List.length_nil]
    push_cast
    ring
  · show (if !(check_lighting frame x y w h).is_acceptable then _ else _) = _
    cases (check_lighting frame x y w h).is_acceptable <;> rfl

/-- Pixel channels within the uint8 range. -/
def pixOK (p : Pix) : Prop :=
  0 ≤ p.b ∧ p.b ≤ 255 ∧ 0 ≤ p.g ∧ p.g ≤ 255 ∧ 0 ≤ p.r ∧ p.r ≤ 255

theorem mem_pySlice {α : Type} {l : List α} {a bnd : ℤ} {v : α}
    (h : v ∈ pySlice l a bnd) : v ∈ l := by
  unfold pySlice at h
  exact List.mem_of_mem_drop (List.mem_of_mem_take h)

theorem grayPix_bounds {p : Pix} (h : pixOK p) : 0 ≤ grayPix p ∧ grayPix p ≤ 255 := by
  obtain ⟨h1, h2, h3, h4, h5, h6⟩ := h
  unfold grayPix
  constructor <;> nlinarith

theorem gray_roi_bounds {frame : Frame} (hpx : ∀ row ∈ frame, ∀ p ∈ row, pixOK p)
    (x y w h : ℤ) :
    ∀ v ∈ flattenQ (grayM (roiOf frame x y w h)), 0 ≤ v ∧ v ≤ 255 := by
  intro v hv
  unfold flattenQ grayM roiOf at hv
  rw [List.mem_flatten] at hv
  obtain ⟨grow, hgrow, hvrow⟩ := hv
  rw [List.mem_map] at hgrow
  obtain ⟨row2, hrow2, rfl⟩ := hgrow
  rw [List.mem_map] at hvrow
  obtain ⟨p, hp, rfl⟩ := hvrow
  rw [List.mem_map] at hrow2
  obtain ⟨row, hrow, rfl⟩ := hrow2
  exact grayPix_bounds (hpx row (mem_pySlice hrow) p (mem_pySlice hp))

theorem qMean_bounds {l : List ℚ} (h : ∀ v ∈ l, 0 ≤ v ∧ v ≤ 255) :
    0 ≤ qMean l ∧ qMean l ≤ 255 := by
  unfold qMean
  by_cases hl : l.length = 0
  · rw [if_pos hl]
    norm_num
  · rw [if_neg hl]
    have hpos : (0 : ℚ) < l.length := by
      exact_mod_cast Nat.pos_of_ne_zero hl
    constructor
    · exact div_nonneg (List.sum_nonneg fun v hv => (h v hv).1) (le_of_lt hpos)
    · rw [div_le_iff₀ hpos]
      calc l.sum ≤ l.length • (255 : ℚ) :=
            List.sum_le_card_nsmul l 255 (fun v hv => (h v hv).2)
        _ = 255 * l.length := by rw [nsmul_eq_mul]; ring

/-- Claim C5, amended: the blur, coverage, eye-visibility and resolution
scores lie in [0,1] (given a nonnegative variance measurement and
nonnegative bbox dimensions), while the lighting score is only bounded by
[0, 91/80 = 1.1375] for uint8-range pixels — it is not clamped to [0,1]. -/
theorem quality_scores_bounded (lapVar : List (List ℚ) → ℚ) (frame : Frame)
    (x y w h : ℤ) (lms : List Landmark)
    (hlv : ∀ m, 0 ≤ lapVar m)
    (hpx : ∀ row ∈ frame, ∀ p ∈ row, pixOK p)
    (hw : 0 ≤ w) (hh : 0 ≤ h) :
    (0 ≤ (check_blur lapVar frame x y w h).score
      ∧ (check_blur lapVar frame x y w h).score ≤ 1)
    ∧ (0 ≤ (check_coverage frame x y w h).score
      ∧ (check_coverage frame x y w h).score ≤ 1)
    ∧ (0 ≤ (check_eye_visibility lms).score ∧ (check_eye_visibility lms).score ≤ 1)
    ∧ (0 ≤ (check_resolution w h).score ∧ (check_resolution w h).score ≤ 1)
    ∧ (0 ≤ (check_lighting frame x y w h).score
      ∧ (check_lighting frame x y w h).score ≤ 91 / 80) := by
  refine ⟨?_, ?_, ?_, ?_, ?_⟩
  · unfold check_blur
    by_cases h0 : roiSize (roiOf frame x y w h) = 0
    · rw [if_pos h0]
      norm_num
    · rw [if_neg h0]
      have hv := hlv (grayM (roiOf frame x y w h))
      exact ⟨le_min (by positivity) zero_le_one, min_le_right _ _⟩
  · unfold check_coverage
    have h0 : (0 : ℚ) ≤ min (|(if 0 < ((frame.length * frameCols frame : ℕ) : ℚ) then
        ((w * h : ℤ) : ℚ) / ((frame.length * frameCols frame : ℕ) : ℚ) else 0) - 13 / 20|
        / (3 / 20)) 1 := le_min (by positivity) zero_le_one
    have h1 : min (|(if 0 < ((frame.length * frameCols frame : ℕ) : ℚ) then
        ((w * h : ℤ) : ℚ) / ((frame.length * frameCols frame : ℕ) : ℚ) else 0) - 13 / 20|
        / (3 / 20)) 1 ≤ 1 := min_le_right _ _
    constructor <;> simp only [] <;> linarith
  · unfold check_eye_visibility
    by_cases hb : (lms.any (fun lm => lm.name == "right_eye") &&
        lms.any (fun lm => lm.name == "left_eye")) = true <;>
      simp [hb]
  · unfold check_resolution
    have h0 : (0 : ℚ) ≤ (min w h : ℤ) := by
      exact_mod_cast le_min hw hh
    exact ⟨le_min (by positivity) zero_le_one, min_le_right _ _⟩
  · unfold check_lighting
    by_cases h0 : roiSize (roiOf frame x y w h) = 0
    · rw [if_pos h0]
      norm_num
    · rw [if_neg h0]
      simp only []
      obtain ⟨hb0, hb255⟩ := qMean_bounds (gray_roi_bounds hpx x y w h)
      have hs0 : (0 : ℝ) ≤ Real.sqrt ((qVar (flattenQ (grayM (roiOf frame x y w h))) : ℚ) : ℝ) :=
        Real.sqrt_nonneg _
      have hm0 : (0 : ℝ) ≤ min (Real.sqrt
          ((qVar (flattenQ (grayM (roiOf frame x y w h))) : ℚ) : ℝ) / 50) 1 :=
        le_min (by positivity) zero_le_one
      have hm1 : min (Real.sqrt
          ((qVar (flattenQ (grayM (roiOf frame x y w h))) : ℚ) : ℝ) / 50) 1 ≤ 1 :=
        min_le_right _ _
      have hbr0 : (0 : ℝ) ≤ (qMean (flattenQ (grayM (roiOf frame x y w h))) : ℝ) := by
        exact_mod_cast hb0
      have hbr255 : (qMean (flattenQ (grayM (roiOf frame x y w h))) : ℝ) ≤ 255 := by
        exact_mod_cast hb255
      constructor <;> nlinarith

/-- A uniformly white pixel. -/
def whitePix : Pix := ⟨255, 255, 255⟩

/-- Counterexample to claim C5 as stated: on a uniform maximally bright
1-by-1 crop the lighting score is 255/200 x 0.5 + 1 x 0.5 = 1.1375 > 1. -/
theorem check_lighting_score_exceeds_one :
    1 < (check_lighting [[whitePix]] 0 0 1 1).score := by
  have hsc : (check_lighting [[whitePix]] 0 0 1 1).score
      = ((qMean [grayPix whitePix] : ℚ) : ℝ) / 200 * (1 / 2)
        + (1 - min (Real.sqrt ((qVar [grayPix whitePix] : ℚ) : ℝ) / 50) 1) * (1 / 2) := rfl
  have hq : qMean [grayPix whitePix] = 255 := by
    unfold qMean grayPix whitePix
    norm_num
  have hv : qVar [grayPix whitePix] = 0 := by
    unfold qVar qMean grayPix whitePix
    norm_num
  rw [hsc, hq, hv]
  rw [show (((0 : ℚ) : ℝ)) = 0 by norm_num, Real.sqrt_zero]
  norm_num

/-- Witness for the amended C5: at a concrete white 1-by-1 frame with a zero
variance measurement, the bounds of `quality_scores_bounded` hold. -/
theorem quality_scores_bounded_witness :
    0 ≤ (check_blur (fun _ => 0) [[whitePix]] 0 0 1 1).score
    ∧ (check_lighting [[whitePix]] 0 0 1 1).score ≤ 91 / 80 :=
  ⟨(quality_scores_bounded (fun _ => 0) [[whitePix]] 0 0 1 1 []
      (fun _ => le_refl 0) (by
        intro row hrow p hp
        simp only [List.mem_singleton] at hrow
        subst hrow
        simp only [List.mem_singleton] at hp
        subst hp
        unfold pixOK whitePix
        norm_num) (by norm_num) (by norm_num)).1.1,
   (quality_scores_bounded (fun _ => 0) [[whitePix]] 0 0 1 1 []
      (fun _ => le_refl 0) (by
        intro row hrow p hp
        simp only [List.mem_singleton] at hrow
        subst hrow
        simp only [List.mem_singleton] at hp
        subst hp
        unfold pixOK whitePix
        norm_num) (by norm_num) (by norm_num)).2.2.2.2.2⟩

/-! ### Enrollment quality score (`ipc_server.py`) and spoof heuristic -/

/-- A face dictionary as produced by `FaceDetector.detect`: bounding box
`(x, y, width, height)`, confidence, landmarks. -/
structure Face where
  bbx : ℤ
  bby : ℤ
  bbw : ℤ
  bbh : ℤ
  confidence : ℚ
  landmarks : List Landmark

/-- `IpcServer._calculate_quality_score`.  The `cv2.Laplacian(...).var()`
measurement on the grayscale crop is the parameter `lapVar`; the weights are
0.4 blur, 0.3 size, 0.3 confidence, with the size score saturating at 10
percent of the frame area.  (The catch-all `return 0.5` of the source guards
only library faults, which the embedding has none of.) -/
def calculate_quality_score (lapVar : List (List ℚ) → ℚ) (frame : Frame)
    (face : Face) : ℚ :=
  let face_roi := roiOf frame face.bbx face.bby face.bbw face.bbh
  if roiSize face_roi = 0 then 0
  else
    let laplacian_var := lapVar (grayM face_roi)
    let blur_score := min (laplacian_var / 100) 1
    let frame_area : ℚ := ((frame.length * frameCols frame : ℕ) : ℚ)
    let face_area : ℚ := ((face.bbw * face.bbh : ℤ) : ℚ)
    let size_score := min (face_area / (frame_area * (1 / 10))) 1
    blur_score * (2 / 5) + size_score * (3 / 10) + face.confidence * (3 / 10)

/-- Claim C8: for any face whose crop is nonempty, the ENROLL_CAPTURE quality
score is 0.4 x min(laplacian_variance/100, 1) + 0.3 x min(face_area/(frame_area
x 0.1), 1) + 0.3 x confidence. -/
theorem calculate_quality_score_formula (lapVar : List (List ℚ) → ℚ)
    (frame : Frame) (face : Face)
    (h : roiSize (roiOf frame face.bbx face.bby face.bbw face.bbh) ≠ 0) :
    calculate_quality_score lapVar frame face
      = (2 / 5) * min (lapVar (grayM (roiOf frame face.bbx face.bby face.bbw face.bbh)) / 100) 1
        + (3 / 10) * min (((face.bbw * face.bbh : ℤ) : ℚ)
            / (((frame.length * frameCols frame : ℕ) : ℚ) * (1 / 10))) 1
        + (3 / 10) * face.confidence := by
  unfold calculate_quality_score
  rw [if_neg h]
  ring

/-- A black pixel. -/
def blackPix : Pix := ⟨0, 0, 0⟩

/-- A 640 x 480 frame (480 rows of 640 pixels). -/
def frame640x480 : Frame := List.replicate 480 (List.replicate 640 blackPix)

theorem frameCols_frame640x480 : frameCols frame640x480 = 640 := by
  unfold frameCols frame640x480
  rw [show (480 : ℕ) = 479 + 1 from rfl, List.replicate_succ]
  simp only [List.head?_cons, Option.getD_some, List.length_replicate]

theorem roiOf_frame640x480 :
    roiOf frame640x480 100 100 300 300 = List.replicate 300 (List.replicate 300 blackPix) := by
  unfold roiOf frame640x480 pySlice
  norm_num [List.drop_replicate, List.take_replicate, List.map_replicate]
  omega

/-- Witness for C8, the spec's worked ENROLL_CAPTURE scenario: bbox
(100,100,300,300) in a 640x480 frame, confidence 0.95, blur variance 150
gives quality score 0.985 = 197/200. -/
theorem calculate_quality_score_witness :
    calculate_quality_score (fun _ => 150) frame640x480
      ⟨100, 100, 300, 300, 19 / 20, []⟩ = 197 / 200 := by
  have h0 : roiSize (roiOf frame640x480 100 100 300 300) ≠ 0 := by
    rw [roiOf_frame640x480]
    unfold roiSize
    rw [List.map_replicate, List.sum_replicate]
    norm_num
  rw [calculate_quality_score_formula (fun _ => 150) frame640x480
    ⟨100, 100, 300, 300, 19 / 20, []⟩ h0]
  rw [frameCols_frame640x480]
  unfold frame640x480
  rw [List.length_replicate]
  norm_num [min_def]

/-- Result dictionary of `LivenessDetector.detect_spoofing`. -/
structure SpoofResult where
  is_spoof : Bool
  confidence : ℚ
  reasons : List String

/-- `LivenessDetector.detect_spoofing`.  The Laplacian texture variance of
the grayscale frame and the mean of the HSV saturation channel are the
opaque OpenCV measurements `lapVar` and `satMean`. -/
def detect_spoofing (lapVar : List (List ℚ) → ℚ) (satMean : Frame → ℚ)
    (frame : Frame) : SpoofResult :=
  let texture_variance := lapVar (grayM frame)
  let r1 : SpoofResult :=
    if texture_variance < 50 then ⟨true, 6 / 10, ["low_texture"]⟩ else ⟨false, 0, []⟩
  let sat := satMean frame
  if sat < 30 then ⟨r1.is_spoof, max r1.confidence (4 / 10), r1.reasons ++ ["low_saturation"]⟩
  else r1

/-- Claim C10: `is_spoof` is set exactly by the texture check; a frame with
mean saturation below 30 but texture variance at least 50 yields reasons
["low_saturation"], confidence 0.4, and `is_spoof` still false. -/
theorem detect_spoofing_spec (lapVar : List (List ℚ) → ℚ) (satMean : Frame → ℚ)
    (frame : Frame) :
    ((detect_spoofing lapVar satMean frame).is_spoof = true ↔ lapVar (grayM frame) < 50)
    ∧ (satMean frame < 30 → 50 ≤ lapVar (grayM frame) →
        detect_spoofing lapVar satMean frame = ⟨false, 4 / 10, ["low_saturation"]⟩) := by
  unfold detect_spoofing
  constructor
  · by_cases ht : lapVar (grayM frame) < 50 <;> by_cases hs : satMean frame < 30 <;>
      simp [ht, hs]
  · intro hs ht
    have hnt : ¬ lapVar (grayM frame) < 50 := not_lt.2 ht
    have hmax : (0 : ℚ) ⊔ 4 / 10 = 4 / 10 := max_eq_right (by norm_num)
    simp [hnt, hs, hmax]

/-- Witness for C10: a frame measured with texture variance 150 and mean
saturation 0 is flagged low_saturation at confidence 0.4 but not a spoof. -/
theorem detect_spoofing_spec_witness :
    detect_spoofing (fun _ => 150) (fun _ => 0) [] = ⟨false, 4 / 10, ["low_saturation"]⟩ :=
  (detect_spoofing_spec (fun _ => 150) (fun _ => 0) []).2 (by norm_num) (by norm_num)

/-! ### Recognition comparator (`face_recognizer.py`) -/

/-- The observable value of an IEEE float: a finite real, a signed infinity,
or NaN.  Needed because numpy division of a float array by a zero norm emits
a warning and produces NaN values — it does not raise. -/
inductive PFloat where
  | fin (x : ℝ)
  | pinf
  | ninf
  | nan

open Classical in
/-- IEEE division of finite values. -/
noncomputable def pdiv (x y : ℝ) : PFloat :=
  if y = 0 then (if x = 0 then .nan else if 0 < x then .pinf else .ninf)
  else .fin (x / y)

open Classical in
/-- IEEE multiplication on float observables. -/
noncomputable def pmul : PFloat → PFloat → PFloat
  | .nan, _ => .nan
  | _, .nan => .nan
  | .fin a, .fin c => .fin (a * c)
  | .fin a, .pinf => if a = 0 then .nan else if 0 < a then .pinf else .ninf
  | .fin a, .ninf => if a = 0 then .nan else if 0 < a then .ninf else .pinf
  | .pinf, .fin a => if a = 0 then .nan else if 0 < a then .pinf else .ninf
  | .ninf, .fin a => if a = 0 then .nan else if 0 < a then .ninf else .pinf
  | .pinf, .pinf => .pinf
  | .pinf, .ninf => .ninf
  | .ninf, .pinf => .ninf
  | .ninf, .ninf => .pinf

/-- IEEE addition on float observables. -/
noncomputable def padd : PFloat → PFloat → PFloat
  | .nan, _ => .nan
  | _, .nan => .nan
  | .fin a, .fin c => .fin (a + c)
  | .fin _, .pinf => .pinf
  | .fin _, .ninf => .ninf
  | .pinf, .fin _ => .pinf
  | .ninf, .fin _ => .ninf
  | .pinf, .pinf => .pinf
  | .pinf, .ninf => .nan
  | .ninf, .pinf => .nan
  | .ninf, .ninf => .ninf

/-- IEEE `>` against a finite threshold (any comparison with NaN is false). -/
noncomputable def pgt (p : PFloat) (t : ℝ) : Bool :=
  match p with
  | .fin x => pyBool (t < x)
  | .pinf => true
  | .ninf => false
  | .nan => false

/-- `np.dot` on 1-d float arrays; `none` is the `ValueError` raised on
mismatched lengths. -/
noncomputable def pdot (u v : List PFloat) : Option PFloat :=
  if u.length = v.length then some ((List.zipWith pmul u v).foldl padd (.fin 0))
  else none

/-- `np.linalg.norm` of a 1-d vector. -/
noncomputable def normE (v : List ℝ) : ℝ := Real.sqrt ((v.map (fun a => a ^ 2)).sum)

/-- The exact real dot product. -/
def rdot (v w : List ℝ) : ℝ := (List.zipWith (fun a c => a * c) v w).sum

/-- `FaceRecognizer.compare` (source name `compare`): `None` inputs return
`(False, 0.0)` up front; both embeddings are divided by their norms, dotted,
and compared strictly against the threshold; the `except` clause converts
the mismatched-length `ValueError` from `np.dot` into `(False, 0.0)`. -/
noncomputable def compareEmb (embedding1 embedding2 : Option (List ℝ))
    (threshold : ℝ) : Bool × PFloat :=
  match embedding1, embedding2 with
  | none, _ => (false, .fin 0)
  | _, none => (false, .fin 0)
  | some v1, some v2 =>
    let emb1_norm := v1.map (fun a => pdiv a (normE v1))
    let emb2_norm := v2.map (fun a => pdiv a (normE v2))
    match pdot emb1_norm emb2_norm with
    | none => (false, .fin 0)
    | some similarity => (pgt similarity threshold, similarity)

theorem pyBool_iff (p : Prop) : pyBool p = true ↔ p := by
  unfold pyBool
  constructor
  · exact @of_decide_eq_true p (Classical.propDecidable p)
  · intro hp
    exact @decide_eq_true p (Classical.propDecidable p) hp

theorem pmul_nan_left (q : PFloat) : pmul .nan q = .nan := by cases q <;> rfl

theorem pmul_nan_right (p : PFloat) : pmul p .nan = .nan := by cases p <;> rfl

theorem padd_nan_left (q : PFloat) : padd .nan q = .nan := by cases q <;> rfl

theorem padd_nan_right (p : PFloat) : padd p .nan = .nan := by cases p <;> rfl

theorem foldl_padd_nan (l : List PFloat) : l.foldl padd .nan = .nan := by
  induction l with
  | nil => rfl
  | cons a tl ih =>
    rw [List.foldl_cons, padd_nan_left]
    exact ih

theorem all_nan_foldl {l : List PFloat} (hne : l ≠ []) (hall : ∀ p ∈ l, p = .nan)
    (a : PFloat) : l.foldl padd a = .nan := by
  cases l with
  | nil => exact absurd rfl hne
  | cons q tl =>
    rw [List.foldl_cons, hall q (List.mem_cons_self ..), padd_nan_right]
    exact foldl_padd_nan tl

theorem zipWith_pmul_nan_left :
    ∀ (u v : List PFloat), (∀ p ∈ u, p = .nan) →
      ∀ z ∈ List.zipWith pmul u v, z = .nan := by
  intro u
  induction u with
  | nil =>
    intro v _ z hz
    simp at hz
  | cons a tu ih =>
    intro v hall z hz
    cases v with
    | nil => simp at hz
    | cons c tv =>
      rw [List.zipWith_cons_cons] at hz
      rcases List.mem_cons.1 hz with rfl | hz2
      · rw [hall a (List.mem_cons_self ..), pmul_nan_left]
      · exact ih tv (fun p hp => hall p (List.mem_cons_of_mem _ hp)) z hz2

theorem zipWith_pmul_nan_right :
    ∀ (u v : List PFloat), (∀ p ∈ v, p = .nan) →
      ∀ z ∈ List.zipWith pmul u v, z = .nan := by
  intro u
  induction u with
  | nil =>
    intro v _ z hz
    simp at hz
  | cons a tu ih =>
    intro v hall z hz
    cases v with
    | nil => simp at hz
    | cons c tv =>
      rw [List.zipWith_cons_cons] at hz
      rcases List.mem_cons.1 hz with rfl | hz2
      · rw [hall c (List.mem_cons_self ..), pmul_nan_right]
      · exact ih tv (fun p hp => hall p (List.mem_cons_of_mem _ hp)) z hz2

theorem normE_eq_zero {v : List ℝ} (h : normE v = 0) : ∀ a ∈ v, a = 0 := by
  unfold normE at h
  have hterms : ∀ x ∈ v.map (fun a => a ^ 2), 0 ≤ x := by
    intro x hx
    rw [List.mem_map] at hx
    obtain ⟨a, _, rfl⟩ := hx
    positivity
  have hsum : (v.map (fun a => a ^ 2)).sum = 0 :=
    (Real.sqrt_eq_zero (List.sum_nonneg hterms)).1 h
  intro a ha
  have hle : a ^ 2 ≤ (v.map (fun a => a ^ 2)).sum :=
    List.single_le_sum hterms _ (List.mem_map_of_mem _ ha)
  have h0 : a ^ 2 = 0 := le_antisymm (hsum ▸ hle) (by positivity)
  exact pow_eq_zero_iff (n := 2) (by norm_num) |>.1 h0

theorem pdiv_zero_zero : pdiv 0 0 = .nan := by
  unfold pdiv
  rw [if_pos rfl, if_pos rfl]

theorem zipWith_pmul_fin :
    ∀ (xs ys : List ℝ), List.zipWith pmul (xs.map .fin) (ys.map .fin)
      = (List.zipWith (fun a c => a * c) xs ys).map .fin := by
  intro xs
  induction xs with
  | nil => intro ys; simp
  | cons a t ih =>
    intro ys
    cases ys with
    | nil => simp
    | cons c tv =>
      simp only [List.map_cons, List.zipWith_cons_cons]
      rw [ih tv]
      rfl

theorem foldl_padd_fin :
    ∀ (l : List ℝ) (c : ℝ), (l.map .fin).foldl padd (.fin c)
      = .fin (l.foldl (fun a x => a + x) c) := by
  intro l
  induction l with
  | nil => intro c; rfl
  | cons a t ih =>
    intro c
    simp only [List.map_cons, List.foldl_cons]
    exact ih (c + a)

theorem foldl_add_sum (l : List ℝ) : ∀ c : ℝ, l.foldl (fun a x => a + x) c = c + l.sum := by
  induction l with
  | nil => intro c; simp
  | cons a t ih =>
    intro c
    rw [List.foldl_cons, ih (c + a), List.sum_cons]
    ring

theorem rdot_map_div (n1 n2 : ℝ) : ∀ (v1 v2 : List ℝ),
    rdot (v1.map (fun a => a / n1)) (v2.map (fun a => a / n2))
      = rdot v1 v2 / (n1 * n2) := by
  intro v1
  induction v1 with
  | nil =>
    intro v2
    simp [rdot]
  | cons a t ih =>
    intro v2
    cases v2 with
    | nil => simp [rdot]
    | cons c tv =>
      have htl := ih tv
      simp only [rdot, List.map_cons, List.zipWith_cons_cons, List.sum_cons] at htl ⊢
      rw [htl, div_mul_div_comm, add_div]

/-- Claim C4, amended: `compare` returns `(False, 0.0)` for a null input or
mismatched lengths; for equal-length non-null inputs with a zero-norm side
it returns `is_match = False` but with similarity NaN (numpy 0/0), not 0.0;
otherwise it returns the cosine similarity of the unit-normalized vectors,
with `is_match` true iff that similarity strictly exceeds the threshold. -/
theorem compareEmb_spec (v1 v2 : List ℝ) (t : ℝ) :
    (∀ e2, compareEmb none e2 t = (false, .fin 0))
    ∧ (compareEmb (some v1) none t = (false, .fin 0))
    ∧ (v1.length ≠ v2.length → compareEmb (some v1) (some v2) t = (false, .fin 0))
    ∧ (v1.length = v2.length → v1 ≠ [] → (normE v1 = 0 ∨ normE v2 = 0) →
        compareEmb (some v1) (some v2) t = (false, .nan))
    ∧ (v1.length = v2.length → normE v1 ≠ 0 → normE v2 ≠ 0 →
        compareEmb (some v1) (some v2) t
          = (pyBool (t < rdot v1 v2 / (normE v1 * normE v2)),
             .fin (rdot v1 v2 / (normE v1 * normE v2)))) := by
  refine ⟨fun e2 => by cases e2 <;> rfl, rfl, ?_, ?_, ?_⟩
  · intro hne
    unfold compareEmb
    dsimp only
    have hpd : pdot (v1.map (fun a => pdiv a (normE v1)))
        (v2.map (fun a => pdiv a (normE v2))) = none := by
      unfold pdot
      rw [if_neg]
      simpa using hne
    rw [hpd]
  · intro hlen hne hz
    unfold compareEmb
    dsimp only
    have hzlen : (List.zipWith pmul (v1.map (fun a => pdiv a (normE v1)))
        (v2.map (fun a => pdiv a (normE v2)))) ≠ [] := by
      have : v1.length ≠ 0 := fun h0 => hne (List.length_eq_zero.1 h0)
      intro hnil
      have := congrArg List.length hnil
      rw [List.length_zipWith] at this
      simp only [List.length_map, List.length_nil] at this
      omega
    have hallnan : ∀ z ∈ List.zipWith pmul (v1.map (fun a => pdiv a (normE v1)))
        (v2.map (fun a => pdiv a (normE v2))), z = .nan := by
      rcases hz with hz1 | hz2
      · apply zipWith_pmul_nan_left
        intro p hp
        rw [List.mem_map] at hp
        obtain ⟨a, ha, rfl⟩ := hp
        rw [normE_eq_zero hz1 a ha, hz1]
        exact pdiv_zero_zero
      · apply zipWith_pmul_nan_right
        intro p hp
        rw [List.mem_map] at hp
        obtain ⟨a, ha, rfl⟩ := hp
        rw [normE_eq_zero hz2 a ha, hz2]
        exact pdiv_zero_zero
    have hpd : pdot (v1.map (fun a => pdiv a (normE v1)))
        (v2.map (fun a => pdiv a (normE v2))) = some .nan := by
      unfold pdot
      rw [if_pos (by simpa using hlen)]
      rw [all_nan_foldl hzlen hallnan]
    rw [hpd]
    rfl
  · intro hlen h1 h2
    unfold compareEmb
    dsimp only
    have hmap1 : v1.map (fun a => pdiv a (normE v1))
        = (v1.map (fun a => a / normE v1)).map PFloat.fin := by
      rw [List.map_map]
      apply List.map_congr_left
      intro a _
      unfold pdiv
      rw [if_neg h1]
      rfl
    have hmap2 : v2.map (fun a => pdiv a (normE v2))
        = (v2.map (fun a => a / normE v2)).map PFloat.fin := by
      rw [List.map_map]
      apply List.map_congr_left
      intro a _
      unfold pdiv
      rw [if_neg h2]
      rfl
    have hpd : pdot (v1.map (fun a => pdiv a (normE v1)))
        (v2.map (fun a => pdiv a (normE v2)))
        = some (.fin (rdot v1 v2 / (normE v1 * normE v2))) := by
      unfold pdot
      rw [if_pos (by simpa using hlen)]
      rw [hmap1, hmap2, zipWith_pmul_fin, foldl_padd_fin, foldl_add_sum, zero_add]
      have := rdot_map_div (normE v1) (normE v2) v1 v2
      unfold rdot at this ⊢
      rw [this]
    rw [hpd]
    rfl

/-- Counterexample to claim C4 as stated: comparing a zero vector against a
unit vector yields similarity NaN, not `(false, 0.0)` — numpy turns 0/0 into
NaN with a warning rather than raising or returning 0. -/
theorem compareEmb_zero_norm_not_zero :
    compareEmb (some [0]) (some [1]) (6 / 10) = (false, PFloat.nan)
    ∧ compareEmb (some [0]) (some [1]) (6 / 10) ≠ (false, PFloat.fin 0) := by
  have hn1 : normE [(0:ℝ)] = 0 := by
    unfold normE
    simp
  have h00 : pdiv 0 (normE [(0:ℝ)]) = .nan := by
    rw [hn1]
    exact pdiv_zero_zero
  have hpd : pdot ([(0:ℝ)].map (fun a => pdiv a (normE [(0:ℝ)])))
      ([(1:ℝ)].map (fun a => pdiv a (normE [(1:ℝ)]))) = some .nan := by
    unfold pdot
    rw [if_pos (by simp)]
    simp only [List.map_cons, List.map_nil, List.zipWith_cons_cons, List.zipWith_nil_right,
      List.foldl_cons, List.foldl_nil]
    rw [h00, pmul_nan_left, padd_nan_right]
  have hmain : compareEmb (some [0]) (some [1]) (6 / 10) = (false, PFloat.nan) := by
    unfold compareEmb
    dsimp only
    rw [hpd]
    rfl
  refine ⟨hmain, ?_⟩
  rw [hmain]
  intro hq
  injection hq with h1 h2
  exact PFloat.noConfusion h2

/-- Witness for the amended C4: comparing a unit vector with itself at the
default threshold 0.6 reports a match with similarity 1. -/
theorem compareEmb_spec_witness :
    compareEmb (some [1]) (some [1]) (6 / 10) = (true, PFloat.fin 1) := by
  have hn : normE [(1:ℝ)] = 1 := by
    unfold normE
    simp
  have h := (compareEmb_spec [1] [1] (6 / 10)).2.2.2.2 rfl
    (by rw [hn]; norm_num) (by rw [hn]; norm_num)
  rw [h]
  have hr : rdot [(1:ℝ)] [(1:ℝ)] = 1 := by
    unfold rdot
    simp
  rw [hr, hn]
  norm_num
  exact (pyBool_iff _).2 (by norm_num)

/-! ### IPC command dispatch (`ipc_server.py`) -/

/-- A JSON value as produced by `json.loads`. -/
inductive JVal where
  | s (v : String)
  | n (v : ℚ)
  | b (v : Bool)
  | null
  | arr (vs : List JVal)
  | obj (kvs : List (String × JVal))

/-- `dict.get(key)` on a parsed JSON object. -/
def dictGet (kvs : List (String × JVal)) (k : String) : Option JVal :=
  (kvs.find? (fun kv => kv.1 == k)).map (fun kv => kv.2)

/-- Python truthiness of a JSON value. -/
def jFalsy : JVal → Bool
  | .s v => v == ""
  | .n q => q == 0
  | .b v => !v
  | .null => true
  | .arr vs => vs.isEmpty
  | .obj kvs => kvs.isEmpty

/-- A Python exception rendered by `str(e)`. -/
abbrev PyErr := String

/-- `str.upper()` over the character data (ASCII-exact; avoids the opaque
positional `String.map` loop). -/
def strUpper (s : String) : String := String.mk (s.data.map Char.toUpper)

/-- `value.upper()`: an `AttributeError` unless the value is a string. -/
def pyUpper : JVal → Except PyErr String
  | .s v => .ok (strUpper v)
  | _ => .error "AttributeError: upper"

/-- `IpcServer._decode_frame`: falsy or absent data gives `None`; the
base64-decode / `np.frombuffer` / `cv2.imdecode` pipeline is the opaque
`codec`, and every exception it raises is caught and converted to `None`. -/
def decode_frame (codec : JVal → Except PyErr (Option Frame))
    (frame_data : Option JVal) : Option Frame :=
  match frame_data with
  | none => none
  | some v =>
    if jFalsy v then none
    else
      match codec v with
      | .error _ => none
      | .ok f => f

/-- Key lookup in the `parameters` value; a non-mapping raises (inside the
dispatcher's try block). -/
def jGetOpt : JVal → String → Except PyErr (Option JVal)
  | .obj kvs, k => .ok (dictGet kvs k)
  | _, _ => .error "TypeError: parameters is not a mapping"

/-- `tuple(parameters['bbox'])` together with the downstream 4-tuple unpack
into integer coordinates; failures raise and are caught at the dispatcher
boundary. -/
def jToBbox : JVal → Except PyErr (ℤ × ℤ × ℤ × ℤ)
  | .arr [.n a, .n c, .n d, .n e] =>
    if a.den = 1 ∧ c.den = 1 ∧ d.den = 1 ∧ e.den = 1 then
      .ok (a.num, c.num, d.num, e.num)
    else .error "TypeError: bbox entries are not integers"
  | _ => .error "TypeError: bbox is not a 4-sequence"

/-- `np.array(parameters['embedding'], dtype=np.float32)`: anything but an
array of numbers raises. -/
noncomputable def jToEmb : JVal → Except PyErr (List ℝ)
  | .arr vs =>
    vs.foldr (fun v acc =>
      match v, acc with
      | .n q, .ok l => .ok ((q : ℝ) :: l)
      | _, .ok _ => .error "ValueError: embedding entries must be numbers"
      | _, .error e => .error e) (.ok [])
  | _ => .error "ValueError: embedding is not an array"

/-- A numeric `threshold` parameter. -/
noncomputable def jToNumR : JVal → Except PyErr ℝ
  | .n q => .ok ((q : ℚ) : ℝ)
  | _ => .error "TypeError: threshold is not a number"

/-- The `data` payload of a successful response. -/
inductive RespData where
  | faces (fs : List Face)
  | emb (e : List ℝ) (confidence : ℚ)
  | cmp (m : Bool) (similarity : PFloat) (threshold : ℝ)
  | enroll (e : List ℝ) (x y w h : ℤ) (confidence : ℚ) (quality_score : ℚ)
      (lms : List Landmark)

/-- A response object: success flag, optional error string, optional data. -/
structure Response where
  success : Bool
  error : Option String
  data : Option RespData

/-- The collaborator boundary of the dispatcher: image codec, detector
model, recognizer embedding extraction, and the OpenCV Laplacian-variance
measurement.  All but the last may raise arbitrarily. -/
structure Collab where
  codec : JVal → Except PyErr (Option Frame)
  detect : Frame → Except PyErr (List Face)
  get_embedding : Frame → Option (ℤ × ℤ × ℤ × ℤ) → Except PyErr (Option (List ℝ))
  lapVar : List (List ℚ) → ℚ

/-- `FaceDetector.get_largest_face`: Python `max` by bbox area, keeping the
first face encountered on ties. -/
def get_largest_face (faces : List Face) : Option Face :=
  if faces.isEmpty then none
  else
    faces.foldl (fun acc f =>
      match acc with
      | none => some f
      | some g => if g.bbw * g.bbh < f.bbw * f.bbh then some f else acc) none

/-- `IpcServer._handle_detect`. -/
def handle_detect (C : Collab) (frame_data : Option JVal) : Except PyErr Response :=
  match decode_frame C.codec frame_data with
  | none => .ok ⟨false, some "Invalid frame data", none⟩
  | some frame => do
    let faces ← C.detect frame
    return ⟨true, none, some (.faces faces)⟩

/-- `IpcServer._handle_extract_embedding`. -/
noncomputable def handle_extract_embedding (C : Collab) (frame_data : Option JVal)
    (parameters : JVal) : Except PyErr Response :=
  match decode_frame C.codec frame_data with
  | none => .ok ⟨false, some "Invalid frame data", none⟩
  | some frame => do
    let bbox ← (match jGetOpt parameters "bbox" with
      | .error e => .error e
      | .ok none => .ok none
      | .ok (some v) => (jToBbox v).map some)
    let embedding ← C.get_embedding frame bbox
    match embedding with
    | none => return ⟨false, some "No face detected", none⟩
    | some e => return ⟨true, none, some (.emb e 1)⟩

/-- `IpcServer._handle_compare`. -/
noncomputable def handle_compare (C : Collab) (frame_data : Option JVal) (parameters : JVal) :
    Except PyErr Response :=
  match decode_frame C.codec frame_data with
  | none => .ok ⟨false, some "Invalid frame data", none⟩
  | some frame => do
    let embp ← jGetOpt parameters "embedding"
    match embp with
    | none => return ⟨false, some "Missing embedding parameter", none⟩
    | some v => do
      let frame_embedding ← C.get_embedding frame none
      match frame_embedding with
      | none => return ⟨false, some "No face detected in frame", none⟩
      | some fe => do
        let compare_embedding ← jToEmb v
        let threshold ← (match jGetOpt parameters "threshold" with
          | .error e => .error e
          | .ok none => .ok ((6 : ℝ) / 10)
          | .ok (some tv) => jToNumR tv)
        let r := compareEmb (some fe) (some compare_embedding) threshold
        return ⟨true, none, some (.cmp r.1 r.2 threshold)⟩

/-- `IpcServer._handle_enroll_capture`. -/
def handle_enroll_capture (C : Collab) (frame_data : Option JVal)
    (_parameters : JVal) : Except PyErr Response :=
  match decode_frame C.codec frame_data with
  | none => .ok ⟨false, some "Invalid frame data", none⟩
  | some frame => do
    let faces ← C.detect frame
    if faces.isEmpty then return ⟨false, some "No face detected", none⟩
    else
      match get_largest_face faces with
      | none => return ⟨false, some "No valid face detected", none⟩
      | some largest_face => do
        let embedding ← C.get_embedding frame
          (some (largest_face.bbx, largest_face.bby, largest_face.bbw, largest_face.bbh))
        match embedding with
        | none => return ⟨false, some "Failed to extract embedding", none⟩
        | some e =>
          let quality_score := calculate_quality_score C.lapVar frame largest_face
          return ⟨true, none, some (.enroll e largest_face.bbx largest_face.bby
            largest_face.bbw largest_face.bbh largest_face.confidence quality_score
            largest_face.landmarks)⟩

/-- The if/elif command chain inside `_process_message`'s try block. -/
noncomputable def dispatch_command (C : Collab) (command : String) (frame_data : Option JVal)
    (parameters : JVal) : Except PyErr Response :=
  if command == "DETECT" then handle_detect C frame_data
  else if command == "EXTRACT_EMBEDDING" then
    handle_extract_embedding C frame_data parameters
  else if command == "COMPARE" then handle_compare C frame_data parameters
  else if command == "ENROLL_CAPTURE" then handle_enroll_capture C frame_data parameters
  else .ok ⟨false, some ("Unknown command: " ++ command), none⟩

/-- `IpcServer._process_message`.  Note that
`message.get('command', '').upper()` runs before the try block, so a
non-string command value raises out of the dispatcher; everything inside
the try block is converted to a failure response. -/
noncomputable def process_message (C : Collab) (message : List (String × JVal)) :
    Except PyErr Response :=
  match pyUpper ((dictGet message "command").getD (.s "")) with
  | .error e => .error e
  | .ok command =>
    let frame_data := dictGet message "frame_data"
    let parameters := (dictGet message "parameters").getD (.obj [])
    .ok (match dispatch_command C command frame_data parameters with
      | .ok response => response
      | .error e => ⟨false, some e, none⟩)

/-- A trivial collaborator assembly for concrete runs: decoding yields no
frame, detection finds nothing, no embeddings, zero variance. -/
def collab0 : Collab :=
  ⟨fun _ => .ok none, fun _ => .ok [], fun _ _ => .ok none, fun _ => 0⟩

/-- Counterexample to claim C1 as stated: a message whose `command` value is
the JSON number 5 makes `_process_message` raise `AttributeError` from
`.upper()` before the try block, so this dispatch path does propagate an
unhandled fault. -/
theorem process_message_nonstring_command_faults :
    process_message collab0 [("command", JVal.n 5)]
      = .error "AttributeError: upper" := rfl

/-- The four recognized commands. -/
def knownCommand (c : String) : Bool :=
  c == "DETECT" || c == "EXTRACT_EMBEDDING" || c == "COMPARE" || c == "ENROLL_CAPTURE"

/-- Claim C1, amended: for every message whose `command` value is a string
(or absent, defaulting to the empty string), the dispatcher returns exactly
one response; an unrecognized command yields a failure response naming it,
any exception from a handler or collaborator is converted to a failure
response carrying the exception text, and a handler's normal response is
passed through.  (A non-string command value instead raises, see the
counterexample.) -/
theorem process_message_spec (C : Collab) (msg : List (String × JVal)) (s : String)
    (hs : (dictGet msg "command").getD (.s "") = JVal.s s) :
    (∃ r, process_message C msg = .ok r)
    ∧ (knownCommand (strUpper s) = false →
        process_message C msg
          = .ok ⟨false, some ("Unknown command: " ++ strUpper s), none⟩)
    ∧ (∀ e, dispatch_command C (strUpper s) (dictGet msg "frame_data")
          ((dictGet msg "parameters").getD (.obj [])) = .error e →
        process_message C msg = .ok ⟨false, some e, none⟩)
    ∧ (∀ r, dispatch_command C (strUpper s) (dictGet msg "frame_data")
          ((dictGet msg "parameters").getD (.obj [])) = .ok r →
        process_message C msg = .ok r) := by
  unfold process_message
  rw [hs]
  dsimp only [pyUpper]
  refine ⟨?_, ?_, ?_, ?_⟩
  · cases hd : dispatch_command C (strUpper s) (dictGet msg "frame_data")
        ((dictGet msg "parameters").getD (.obj [])) with
    | ok r => exact ⟨r, rfl⟩
    | error e => exact ⟨⟨false, some e, none⟩, rfl⟩
  · intro hunk
    simp only [knownCommand, Bool.or_eq_false_iff] at hunk
    obtain ⟨⟨⟨h1, h2⟩, h3⟩, h4⟩ := hunk
    have hd : dispatch_command C (strUpper s) (dictGet msg "frame_data")
        ((dictGet msg "parameters").getD (.obj []))
        = .ok ⟨false, some ("Unknown command: " ++ strUpper s), none⟩ := by
      unfold dispatch_command
      rw [if_neg (by simp [h1]), if_neg (by simp [h2]), if_neg (by simp [h3]),
        if_neg (by simp [h4])]
    rw [hd]
  · intro e he
    rw [he]
  · intro r hr
    rw [hr]

/-- Witness for the amended C1: an unknown command "bogus" gets the failure
response naming its uppercased form, through a concrete collaborator. -/
theorem process_message_spec_witness :
    process_message collab0 [("command", JVal.s "bogus")]
      = .ok ⟨false, some ("Unknown command: " ++ strUpper "bogus"), none⟩ :=
  (process_message_spec collab0 [("command", JVal.s "bogus")] "bogus" rfl).2.1 (by decide)

/-- Claim C9: a DETECT command whose frame data cannot be decoded yields
exactly the failure response with error "Invalid frame data", returned
normally (`Except.ok`), so the per-connection serve loop goes on to read
the next command on the same connection. -/
theorem handle_detect_invalid_frame (C : Collab) (msg : List (String × JVal))
    (s : String)
    (hs : (dictGet msg "command").getD (.s "") = JVal.s s)
    (hup : (strUpper s) = "DETECT")
    (hdec : decode_frame C.codec (dictGet msg "frame_data") = none) :
    process_message C msg = .ok ⟨false, some "Invalid frame data", none⟩ := by
  unfold process_message
  rw [hs]
  dsimp only [pyUpper]
  have hd : dispatch_command C (strUpper s) (dictGet msg "frame_data")
      ((dictGet msg "parameters").getD (.obj []))
      = .ok ⟨false, some "Invalid frame data", none⟩ := by
    unfold dispatch_command
    rw [hup, if_pos (show (("DETECT" : String) == "DETECT") = true from rfl)]
    unfold handle_detect
    rw [hdec]
  rw [hd]

/-- A DETECT message whose frame data will not decode. -/
def msgDetectBad : List (String × JVal) :=
  [("command", JVal.s "DETECT"), ("frame_data", JVal.s "nonsense")]

/-- Witness for C9 at a concrete message and collaborator whose codec
decodes nothing. -/
theorem handle_detect_invalid_frame_witness :
    process_message collab0 msgDetectBad
      = .ok ⟨false, some "Invalid frame data", none⟩ :=
  handle_detect_invalid_frame collab0 msgDetectBad "DETECT" rfl rfl rfl

end GSMon
